import Mathlib

/-!
Shallow embedding of the FN-OS1 offline-signature module
(`src/offline-signature.js`, `src/simple-offline-signature.js` and the
dispatch layer) of `fastnear/base-frontend-naj`, together with proofs of
the specification's claims about it.

JSON-like JavaScript values are modelled by the inductive type `Json`
below; JavaScript numbers are modelled as integers (every value the
module itself ever compares or stores in an envelope is either a string
or an integral timestamp).  The `undefined` value that property access
on a missing key yields is modelled by `Json.null`: both are falsy and
both compare unequal to every string, which are the only ways the
module observes them.
-/

/-- A JSON-like JavaScript value.  Objects carry their fields in
insertion order, as JavaScript objects do; a well-formed object never
has two fields with the same key. -/
inductive Json where
  | null : Json
  | bool (b : Bool) : Json
  | num (n : Int) : Json
  | str (s : String) : Json
  | arr (elems : List Json) : Json
  | obj (fields : List (String × Json)) : Json

/-- JavaScript property access `o[k]` on the field list of an object:
the value stored at key `k`, or `undefined` (modelled as `null`) when
the key is absent. -/
def jlookup : List (String × Json) → String → Json
  | [], _ => .null
  | (k', v) :: rest, k => if k' = k then v else jlookup rest k

theorem sizeOf_jlookup_lt (kvs : List (String × Json)) (k : String) :
    sizeOf (jlookup kvs k) < 1 + sizeOf kvs := by
  induction kvs with
  | nil => simp [jlookup]
  | cons p rest ih =>
    obtain ⟨k', v⟩ := p
    simp only [jlookup]
    split
    · simp; omega
    · simp only [List.cons.sizeOf_spec] at *
      omega

/-- `Object.keys(v).sort()`: ascending lexicographic sort of the key
list (JavaScript's default sort compares strings by code units; keys of
a JavaScript object are unique, so any comparison sort yields the same
list). -/
def sortKeys (ks : List String) : List String :=
  ks.insertionSort (· ≤ ·)

/-- The recursive `canon` helper inside `canonicalize`
(src/offline-signature.js lines 8-16): primitives pass through, arrays
are mapped element-wise, and objects are rebuilt by walking
`Object.keys(v).sort()` and re-reading each key. -/
def canon : Json → Json
  | .null => .null
  | .bool b => .bool b
  | .num n => .num n
  | .str s => .str s
  | .arr xs => .arr (xs.attach.map fun x => canon x.1)
  | .obj kvs => .obj ((sortKeys (kvs.map Prod.fst)).map fun k => (k, canon (jlookup kvs k)))
termination_by j => sizeOf j
decreasing_by
  · have := List.sizeOf_lt_of_mem x.2
    simp only [Json.arr.sizeOf_spec]
    omega
  · have := sizeOf_jlookup_lt kvs k
    simp only [Json.obj.sizeOf_spec]
    omega

/-- One hexadecimal digit, lower case, as produced by the `\u00XX`
escapes of `JSON.stringify`. -/
def hexDigit (n : Nat) : Char :=
  if n < 10 then Char.ofNat (48 + n) else Char.ofNat (87 + n)

/-- The escape `JSON.stringify` applies to a single character inside a
string literal: quote and backslash are backslash-escaped, the control
characters with short escapes use them, the remaining control
characters become `\u00XX`, and everything else passes through. -/
def escapeChar (c : Char) : String :=
  if c = '"' then "\\\""
  else if c = '\\' then "\\\\"
  else if c = '\x08' then "\\b"
  else if c = '\x0c' then "\\f"
  else if c = '\n' then "\\n"
  else if c = '\r' then "\\r"
  else if c = '\t' then "\\t"
  else if c.toNat < 32 then
    "\\u00" ++ String.singleton (hexDigit (c.toNat / 16)) ++ String.singleton (hexDigit (c.toNat % 16))
  else String.singleton c

/-- A JSON string literal: the characters escaped and wrapped in
double quotes. -/
def quoteString (s : String) : String :=
  "\"" ++ String.join (s.data.map escapeChar) ++ "\""

/-- `Array.prototype.join(',')`: the pieces separated by commas. -/
def joinComma : List String → String
  | [] => ""
  | [s] => s
  | s :: rest => s ++ "," ++ joinComma rest

/-- `JSON.stringify` without a replacer or indentation: minimal JSON
text, no insignificant whitespace, object fields in their stored
(insertion) order. -/
def stringify : Json → String
  | .null => "null"
  | .bool true => "true"
  | .bool false => "false"
  | .num n => toString n
  | .str s => quoteString s
  | .arr xs => "[" ++ joinComma (xs.attach.map fun x => stringify x.1) ++ "]"
  | .obj kvs =>
      "\x7b" ++ joinComma (kvs.attach.map fun p => quoteString p.1.1 ++ ":" ++ stringify p.1.2) ++ "\x7d"
termination_by j => sizeOf j
decreasing_by
  · have := List.sizeOf_lt_of_mem x.2
    simp only [Json.arr.sizeOf_spec]
    omega
  · have h1 := List.sizeOf_lt_of_mem p.2
    have h2 : sizeOf p.1.2 < sizeOf p.1 := by
      obtain ⟨a, b⟩ := p.1
      simp

    simp only [Json.obj.sizeOf_spec]
    omega

/-- `canonicalize` (src/offline-signature.js lines 7-18):
`JSON.stringify(canon(value))`. -/
def canonicalize (value : Json) : String :=
  stringify (canon value)

/-- UTF-8 encoding of one character, as a list of byte values. -/
def utf8EncodeCharNat (c : Char) : List Nat :=
  let n := c.toNat
  if n < 0x80 then [n]
  else if n < 0x800 then [0xC0 + n / 64, 0x80 + n % 64]
  else if n < 0x10000 then [0xE0 + n / 4096, 0x80 + (n / 64) % 64, 0x80 + n % 64]
  else [0xF0 + n / 262144, 0x80 + (n / 4096) % 64, 0x80 + (n / 64) % 64, 0x80 + n % 64]

/-- `new TextEncoder().encode(s)`: the UTF-8 bytes of a string. -/
def textEncode (s : String) : List Nat :=
  s.data.flatMap utf8EncodeCharNat

/-- The ambient JavaScript/library environment the module runs in: the
clock, `Date` string parsing, the base58 codec, the hash and the two
curve-verification primitives of the imported libraries, the random
nonce the module draws, and the `near-api-js` public-key verifier used
by the simple path.  The module's own logic is defined over an
arbitrary such environment. -/
structure JsEnv where
  /-- `Date.now()`, milliseconds. -/
  now : Int
  /-- `new Date(s).getTime()` for a string argument; `none` models an
  invalid date (`NaN`). -/
  parseDate : String → Option Int
  /-- `new Date(ms).toISOString()` for the instant `ms`. -/
  toISO : Int → String
  /-- `bs58.encode`. -/
  b58encode : List Nat → String
  /-- `bs58.decode`; `none` models the exception thrown on input that
  is not valid base58. -/
  b58decode : String → Option (List Nat)
  /-- `sha256` from `@noble/hashes`. -/
  sha256 : List Nat → List Nat
  /-- `ed25519.verify(sig, msg, pub)` from `@noble/curves`. -/
  ed25519Verify : (sig msg pub : List Nat) → Bool
  /-- `secp256k1.verify(sig, digest, pub)` from `@noble/curves`. -/
  secpVerify : (sig digest pub : List Nat) → Bool
  /-- The value `generateNonce()` returns for this signing call
  (16 random bytes, base58-encoded). -/
  nonce : String
  /-- `nearAPI.utils.PublicKey.from(pk).verify(msg, sig)`; `none`
  models a throw while parsing the public key. -/
  nearPkVerify : (pk : String) → (msg sig : List Nat) → Option Bool
  /-- `detectNetwork()`: the network inferred from
  `window.location.hostname`. -/
  detectedNetwork : String

/-- A NEAR `KeyPair` as the module uses it: it can sign a byte string
and render its public key as a self-describing
`<curve>:<base58>` string. -/
structure KeyPair where
  sign : List Nat → List Nat
  publicKey : String

/-- `String.prototype.split` with a one-character separator, on the
character list of the string. -/
def splitCharList (sep : Char) : List Char → List String
  | [] => [""]
  | c :: rest =>
    let r := splitCharList sep rest
    if c = sep then "" :: r
    else
      match r with
      | s :: tail => (String.singleton c ++ s) :: tail
      | [] => [String.singleton c]

/-- `s.split(sep)` for a one-character separator. -/
def splitString (sep : Char) (s : String) : List String :=
  splitCharList sep s.data

/-- `parseNearPk` (src/offline-signature.js lines 26-45): split the
self-describing key on `:`, base58-decode the body, enforce the exact
raw length per curve, and for secp256k1 re-expand the 64 raw X‖Y bytes
with the uncompressed-point prefix byte `0x04` for noble.  Any throw
(missing body, bad base58, wrong length, unknown kind) is
`Except.error`. -/
def parseNearPk (E : JsEnv) (pk : Json) : Except Unit (String × List Nat) :=
  match pk with
  | .str pkStr =>
    match splitString ':' pkStr with
    | [] => .error ()
    | [_] => .error ()
    | kind :: b58 :: _ =>
      match E.b58decode b58 with
      | none => .error ()
      | some raw =>
        if kind = "ed25519" then
          if raw.length ≠ 32 then .error () else .ok ("ed25519", raw)
        else if kind = "secp256k1" then
          if raw.length ≠ 64 then .error () else .ok ("secp256k1-ecdsa", 4 :: raw)
        else .error ()
  | _ => .error ()

/-- `getAlgFromKeyPair` (src/offline-signature.js lines 47-51): the
declared algorithm derived from the public key's prefix; anything that
is not `secp256k1` maps to `ed25519`. -/
def getAlgFromKeyPair (kp : KeyPair) : String :=
  if (splitString ':' kp.publicKey).headD "" = "secp256k1" then "secp256k1-ecdsa"
  else "ed25519"

/-- JavaScript property access `v.k` in the contexts where it cannot
throw: the stored value on an object, `undefined` (modelled as `null`)
otherwise.  This models the optional-chaining reads (`sig?.alg`, line
120) and the reads performed after `v` is already known not to be
`null`/`undefined`. -/
def getField (v : Json) (k : String) : Json :=
  match v with
  | .obj kvs => jlookup kvs k
  | _ => .null

/-- Plain JavaScript property access `v.k` with no optional chaining,
as in the unguarded `sig.domain` read (src/offline-signature.js line
116): it throws a `TypeError` when `v` is `null`/`undefined`, yields
the stored value on an object, and `undefined` on any other
primitive. -/
def getFieldStrict (v : Json) (k : String) : Except Unit Json :=
  match v with
  | .null => .error ()
  | .obj kvs => .ok (jlookup kvs k)
  | _ => .ok .null

/-- JavaScript truthiness of a `Json` value (`undefined` is covered by
`Json.null`). -/
def truthy : Json → Bool
  | .null => false
  | .bool b => b
  | .num n => n ≠ 0
  | .str s => s ≠ ""
  | .arr _ => true
  | .obj _ => true

/-- JavaScript strict equality `v === s` between an arbitrary value
and a string: true exactly when `v` is that string. -/
def strictEqStr (v : Json) (s : String) : Bool :=
  match v with
  | .str t => t = s
  | _ => false

/-- `Object.keys(v)`: the own enumerable property names.  Per ES2015
semantics a primitive is coerced — numbers and booleans have no such
properties, strings and arrays expose their indices — and only
`null`/`undefined` make the call throw. -/
def keysOf : Json → Except Unit (List String)
  | .null => .error ()
  | .bool _ => .ok []
  | .num _ => .ok []
  | .str s => .ok ((List.range s.length).map toString)
  | .arr xs => .ok ((List.range xs.length).map toString)
  | .obj kvs => .ok (kvs.map Prod.fst)

/-- `new Date(v).getTime()` for the envelope's `exp` value: strings go
through `Date` parsing, numbers are epoch milliseconds, booleans
coerce to 0/1, `null` coerces to 0; arrays and objects are modelled as
invalid (`none` = `NaN`).  (The verifier evaluates this only after the
presence check, so `exp` is truthy there.) -/
def dateGetTime (E : JsEnv) : Json → Option Int
  | .str s => E.parseDate s
  | .num n => some n
  | .bool b => some (if b then 1 else 0)
  | .null => some 0
  | .arr _ => none
  | .obj _ => none

/-- The signed message `signEnvelope` returns:
`{ message: envelope, signature: bs58, publicKey: envelope.offline_signature.pk }`. -/
structure SignedMessage where
  message : Json
  signature : String
  publicKey : Json

/-- `buildEnvelope` (src/offline-signature.js lines 53-78): the fixed
envelope structure, a single wrapper key around the fixed field set,
fields in the source's literal order. -/
def buildEnvelope (network aud sub pk nonce iat exp : String) (payload : Json)
    (alg : String) : Json :=
  .obj [("offline_signature", .obj
    [ ("domain", .str "fastnear/offline-signature@v1")
    , ("alg", .str alg)
    , ("network", .str network)
    , ("aud", .str aud)
    , ("sub", .str sub)
    , ("pk", .str pk)
    , ("nonce", .str nonce)
    , ("iat", .str iat)
    , ("exp", .str exp)
    , ("payload", payload) ])]

/-- `signEnvelope` (src/offline-signature.js lines 80-106): canonical
bytes of the whole envelope; ed25519 signs them directly, secp256k1
signs their SHA-256 digest; any other declared algorithm throws.  The
result carries the unmodified envelope, the base58 signature and the
envelope's own `pk` field. -/
def signEnvelope (E : JsEnv) (envelope : Json) (kp : KeyPair) :
    Except Unit SignedMessage :=
  let bytes := textEncode (canonicalize envelope)
  let alg := getField (getField envelope "offline_signature") "alg"
  if strictEqStr alg "ed25519" then
    .ok { message := envelope
        , signature := E.b58encode (kp.sign bytes)
        , publicKey := getField (getField envelope "offline_signature") "pk" }
  else if strictEqStr alg "secp256k1-ecdsa" then
    .ok { message := envelope
        , signature := E.b58encode (kp.sign (E.sha256 bytes))
        , publicKey := getField (getField envelope "offline_signature") "pk" }
  else .error ()

/-- The `try` block of `verifyEnvelope` (src/offline-signature.js
lines 129-151): canonical bytes, base58 signature decode, public-key
parse, declared-vs-encoded algorithm consistency, signature length,
then the curve primitive.  Every throw inside the block is caught and
becomes `false`. -/
def tryVerify (E : JsEnv) (message : Json) (signature : String) (sig : Json) : Bool :=
  let bytes := textEncode (canonicalize message)
  match E.b58decode signature with
  | none => false
  | some sigBytes =>
    match parseNearPk E (getField sig "pk") with
    | .error _ => false
    | .ok (alg, pub) =>
      if ¬ strictEqStr (getField sig "alg") alg ∧
          ¬ (strictEqStr (getField sig "alg") "secp256k1-ecdsa" ∧ alg = "secp256k1-ecdsa") then
        false
      else if alg = "ed25519" then
        if sigBytes.length ≠ 64 then false
        else E.ed25519Verify sigBytes bytes pub
      else if alg = "secp256k1-ecdsa" then
        if sigBytes.length ≠ 64 then false
        else E.secpVerify sigBytes (E.sha256 bytes) pub
      else false

/-- `verifyEnvelope` (src/offline-signature.js lines 108-152): the
structural check on `Object.keys(message)`, the domain check — whose
`sig.domain` read is unguarded and throws when the wrapper's value is
`null`/`undefined` — the required-field presence check (optional
chaining, cannot throw), the expiry check, then the guarded
cryptographic block.  The uncaught throws are the `Object.keys` call
and that domain read; every later read happens with `sig` known
non-null or inside the `try`. -/
def verifyEnvelope (E : JsEnv) (message : Json) (signature : String) :
    Except Unit Bool :=
  match keysOf message with
  | .error e => .error e
  | .ok keys =>
    if keys.length ≠ 1 ∨ keys.head? ≠ some "offline_signature" then .ok false
    else
      let sig := getField message "offline_signature"
      match getFieldStrict sig "domain" with
      | .error e => .error e
      | .ok dom =>
        if ¬ strictEqStr dom "fastnear/offline-signature@v1" then .ok false
        else if ¬ truthy (getField sig "alg") ∨ ¬ truthy (getField sig "aud") ∨
            ¬ truthy (getField sig "pk") ∨ ¬ truthy (getField sig "nonce") ∨
            ¬ truthy (getField sig "exp") ∨ ¬ truthy (getField sig "sub") then .ok false
        else if (match dateGetTime E (getField sig "exp") with
                 | some t => decide (t < E.now)
                 | none => false) then .ok false
        else .ok (tryVerify E message signature sig)

/-- `createOfflineSignature` (src/offline-signature.js lines 154-179):
build a fresh envelope around the payload (nonce drawn, `iat` now,
`exp` now + ttl, algorithm derived from the key pair) and sign it. -/
def createOfflineSignature (E : JsEnv) (network aud sub : String) (kp : KeyPair)
    (payload : Json) (ttlMinutes : Int := 5) : Except Unit SignedMessage :=
  let exp := E.now + ttlMinutes * 60 * 1000
  let alg := getAlgFromKeyPair kp
  let envelope := buildEnvelope network aud sub kp.publicKey E.nonce
    (E.toISO E.now) (E.toISO exp) payload alg
  signEnvelope E envelope kp

/-- One outcome of `provider.query({request_type: 'view_access_key', ...})`:
success, a not-found rejection (key or account missing on the ledger),
or any other transport-level rejection. -/
inductive RpcOutcome where
  | success : RpcOutcome
  | notFound (msg : String) : RpcOutcome
  | transportError (msg : String) : RpcOutcome

/-- `assertKeyOnChain` (src/offline-signature.js lines 181-194):
`true` when the query resolves; the catch-all `catch` turns every
rejection into `false`. -/
def assertKeyOnChain (outcome : RpcOutcome) : Bool :=
  match outcome with
  | .success => true
  | .notFound _ => false
  | .transportError _ => false

/-- The object `simpleSign` returns
(src/simple-offline-signature.js lines 19-36). -/
structure SimpleSigned where
  message : String
  signature : String
  publicKey : String
  accountId : String

/-- `simpleSign` (src/simple-offline-signature.js lines 19-36): plain
`JSON.stringify` of the literal `payload`/`accountId`/`timestamp`
object — no canonicalization, no envelope wrapper, no domain tag, no
expiry — signed directly by the key pair. -/
def simpleSign (E : JsEnv) (payload : Json) (kp : KeyPair) (accountId : String) :
    SimpleSigned :=
  let message := stringify (.obj
    [ ("payload", payload)
    , ("accountId", .str accountId)
    , ("timestamp", .num E.now) ])
  { message
  , signature := E.b58encode (kp.sign (textEncode message))
  , publicKey := kp.publicKey
  , accountId }

/-- `simpleVerify` (src/simple-offline-signature.js lines 43-54):
decode the signature and hand the message bytes to the `near-api-js`
public-key verifier; any throw is caught and becomes `false`. -/
def simpleVerify (E : JsEnv) (sm : SimpleSigned) : Bool :=
  match E.b58decode sm.signature with
  | none => false
  | some sigBytes => (E.nearPkVerify sm.publicKey (textEncode sm.message) sigBytes).getD false

/-- `USE_FN_OS1` (src/simple-offline-signature.js line 59): the
module-level feature flag, shipped as `false`. -/
def USE_FN_OS1 : Bool := false

/-- A signed message as the dispatch layer passes it around: either a
full FN-OS1 signed message or a simple one. -/
inductive DispatchedMessage where
  | env (m : SignedMessage) : DispatchedMessage
  | simple (m : SimpleSigned) : DispatchedMessage

/-- `signOfflineMessage` (dispatch layer): on the FN-OS1 branch,
default the network via `detectNetwork()` and call
`createOfflineSignature`; on the simple branch call `simpleSign`. -/
def signOfflineMessage (E : JsEnv) (payload : Json) (kp : KeyPair)
    (accountId aud : String) (network : Option String) (ttlMinutes : Int := 5) :
    Except Unit DispatchedMessage :=
  if USE_FN_OS1 then
    let net := network.getD E.detectedNetwork
    (createOfflineSignature E net aud accountId kp payload ttlMinutes).map .env
  else
    .ok (.simple (simpleSign E payload kp accountId))

/-- `verifyOfflineMessage` (dispatch layer): `verifyEnvelope(sm)` on
the FN-OS1 branch, `simpleVerify(sm)` on the simple branch.  It is
stated over simple-shaped messages — the only shape the shipped code
ever produces; handed one, the dead FN-OS1 branch would re-read its
JSON text as the envelope `message`. -/
def verifyOfflineMessage (E : JsEnv) (sm : SimpleSigned) : Except Unit Bool :=
  if USE_FN_OS1 then verifyEnvelope E (.str sm.message) sm.signature
  else .ok (simpleVerify E sm)


/-- A lookup-table stand-in for `Date` string parsing, used by the
concrete test environment below. -/
def toyParseDate (s : String) : Option Int :=
  if s = "800000" then some 800000
  else if s = "499000" then some 499000
  else if s = "501000" then some 501000
  else if s = "440000" then some 440000
  else if s = "560000" then some 560000
  else none

/-- A concrete environment with toy primitives, used to evaluate the
pipeline at specific inputs: base58 is a three-entry codebook, the
curve verifiers accept exactly the signature the test key pair
produces, and the clock stands at 500000 ms. -/
def testEnv : JsEnv where
  now := 500000
  parseDate := toyParseDate
  toISO := fun n => toString n
  b58encode := fun _ => "S"
  b58decode := fun s =>
    if s = "K" then some (List.replicate 32 1)
    else if s = "L" then some (List.replicate 64 2)
    else if s = "S" then some (List.replicate 64 7)
    else none
  sha256 := fun _ => List.replicate 32 9
  ed25519Verify := fun sig _ _ => sig = List.replicate 64 7
  secpVerify := fun sig _ _ => sig = List.replicate 64 7
  nonce := "n"
  nearPkVerify := fun _ _ sig => some (sig = List.replicate 64 7)
  detectedNetwork := "mainnet"

/-- A concrete ed25519-prefixed key pair whose signatures are the
constant the test environment's verifiers accept. -/
def testKeyPair : KeyPair where
  sign := fun _ => List.replicate 64 7
  publicKey := "ed25519:K"

/-! ### Canonicalization: determinism up to key order -/

theorem canon_arr (xs : List Json) : canon (.arr xs) = .arr (xs.map canon) := by
  rw [canon]
  exact congrArg Json.arr (List.attach_map_val xs canon)

theorem canon_obj (kvs : List (String × Json)) :
    canon (.obj kvs) =
      .obj ((sortKeys (kvs.map Prod.fst)).map fun k => (k, canon (jlookup kvs k))) := by
  rw [canon]

/-- If `k` occurs among the keys, the pair read back by property
access is one of the stored pairs. -/
theorem jlookup_mem {kvs : List (String × Json)} {k : String}
    (h : k ∈ kvs.map Prod.fst) : (k, jlookup kvs k) ∈ kvs := by
  induction kvs with
  | nil => simp at h
  | cons p rest ih =>
    obtain ⟨k', v⟩ := p
    by_cases hk : k' = k
    · subst hk
      simp [jlookup]
    · have hmem : k ∈ rest.map Prod.fst := by
        simp only [List.map_cons, List.mem_cons] at h
        rcases h with h1 | h1
        · exact absurd h1.symm hk
        · exact h1
      simp only [jlookup, if_neg hk]
      exact List.mem_cons_of_mem _ (ih hmem)

/-- Deep equality of JSON-like values up to the order of object keys:
primitives equal, arrays pointwise equivalent in order, objects with
the same (duplicate-free) key set and equivalent values at every
key. -/
inductive JEquiv : Json → Json → Prop where
  | null : JEquiv .null .null
  | bool (b : Bool) : JEquiv (.bool b) (.bool b)
  | num (n : Int) : JEquiv (.num n) (.num n)
  | str (s : String) : JEquiv (.str s) (.str s)
  | arr {xs ys : List Json} (hlen : xs.length = ys.length)
      (h : ∀ p ∈ xs.zip ys, JEquiv p.1 p.2) : JEquiv (.arr xs) (.arr ys)
  | obj {xs ys : List (String × Json)}
      (hperm : (xs.map Prod.fst).Perm (ys.map Prod.fst))
      (hnd : (xs.map Prod.fst).Nodup)
      (h : ∀ k v w, (k, v) ∈ xs → (k, w) ∈ ys → JEquiv v w) :
      JEquiv (.obj xs) (.obj ys)

/-- Mapping a function over two lists that agree pointwise along their
zip (and have equal length) gives equal results. -/
theorem map_eq_of_zip_eq {α β : Type} {f : α → β} :
    ∀ {xs ys : List α}, xs.length = ys.length →
      (∀ p ∈ xs.zip ys, f p.1 = f p.2) → xs.map f = ys.map f
  | [], [], _, _ => rfl
  | x :: xs, y :: ys, hlen, h => by
    simp only [List.map_cons]
    have hxy : f x = f y := h (x, y) (by simp [List.zip_cons_cons])
    have htail : xs.map f = ys.map f :=
      map_eq_of_zip_eq (by simpa using hlen)
        (fun p hp => h p (by simp [List.zip_cons_cons, hp]))
    rw [hxy, htail]

/-- `canon` maps deep-equal-up-to-key-order values to the same
canonical structure. -/
theorem canon_eq_of_jequiv {v w : Json} (h : JEquiv v w) : canon v = canon w := by
  induction h with
  | null => rfl
  | bool b => rfl
  | num n => rfl
  | str s => rfl
  | arr hlen h ih =>
    rw [canon_arr, canon_arr]
    exact congrArg Json.arr (map_eq_of_zip_eq hlen ih)
  | @obj xs ys hperm hnd h ih =>
    rw [canon_obj, canon_obj]
    have hks : sortKeys (xs.map Prod.fst) = sortKeys (ys.map Prod.fst) := by
      have hs1 : List.Sorted (fun a b => a ≤ b) (sortKeys (xs.map Prod.fst)) :=
        List.sorted_insertionSort _ _
      have hs2 : List.Sorted (fun a b => a ≤ b) (sortKeys (ys.map Prod.fst)) :=
        List.sorted_insertionSort _ _
      have hp : (sortKeys (xs.map Prod.fst)).Perm (sortKeys (ys.map Prod.fst)) :=
        (List.perm_insertionSort _ _).trans
          (hperm.trans (List.perm_insertionSort _ _).symm)
      exact List.eq_of_perm_of_sorted hp hs1 hs2
    rw [hks]
    refine congrArg Json.obj (List.map_congr_left fun k hk => ?_)
    have hky : k ∈ ys.map Prod.fst := by
      simpa [sortKeys] using hk
    have hkx : k ∈ xs.map Prod.fst := hperm.symm.subset hky
    exact congrArg (Prod.mk k) (ih k _ _ (jlookup_mem hkx) (jlookup_mem hky))

/-! ### Structure of the verifier pipeline -/

/-- Every run of the verifier either throws at `Object.keys`, rejects
with `false` at one of the cheap checks, or reaches the guarded
cryptographic block. -/
theorem verifyEnvelope_cases (E : JsEnv) (msg : Json) (s : String) :
    verifyEnvelope E msg s = .error () ∨ verifyEnvelope E msg s = .ok false ∨
      verifyEnvelope E msg s =
        .ok (tryVerify E msg s (getField msg "offline_signature")) := by
  cases h : keysOf msg with
  | error e =>
    cases e
    left
    simp only [verifyEnvelope, h]
  | ok keys =>
    simp only [verifyEnvelope, h]
    split
    · right; left; rfl
    · split
      · left; rfl
      · split
        · right; left; rfl
        · split
          · right; left; rfl
          · split
            · right; left; rfl
            · right; right; rfl

/-- On any message that is not `null`/`undefined`, `Object.keys`
succeeds. -/
theorem keysOf_ok_of_ne_null {msg : Json} (h : msg ≠ .null) :
    ∃ ks, keysOf msg = .ok ks := by
  cases msg with
  | null => exact absurd rfl h
  | bool b => exact ⟨_, rfl⟩
  | num n => exact ⟨_, rfl⟩
  | str s => exact ⟨_, rfl⟩
  | arr xs => exact ⟨_, rfl⟩
  | obj kvs => exact ⟨_, rfl⟩

/-- Plain property access succeeds on every non-null value and agrees
with the non-throwing accessor there. -/
theorem getFieldStrict_ok_of_ne_null {v : Json} (k : String) (h : v ≠ .null) :
    getFieldStrict v k = .ok (getField v k) := by
  cases v <;> first | exact absurd rfl h | rfl

/-- `Object.keys` throws exactly on `null`/`undefined`. -/
theorem keysOf_error_iff (msg : Json) : keysOf msg = .error () ↔ msg = .null := by
  cases msg <;> simp [keysOf]

/-- Once `Object.keys` has succeeded and the wrapper's value is not
`null`/`undefined` — so the unguarded `sig.domain` read cannot throw —
the verifier always returns a boolean: every later throw is inside the
`try` and is caught. -/
theorem verifyEnvelope_total (E : JsEnv) (msg : Json) (s : String)
    {ks : List String} (h : keysOf msg = .ok ks)
    (hsig : getField msg "offline_signature" ≠ .null) :
    ∃ b, verifyEnvelope E msg s = .ok b := by
  simp only [verifyEnvelope, h, getFieldStrict_ok_of_ne_null _ hsig]
  split
  · exact ⟨false, rfl⟩
  · split
    · exact ⟨false, rfl⟩
    · split
      · exact ⟨false, rfl⟩
      · split
        · exact ⟨false, rfl⟩
        · exact ⟨_, rfl⟩

/-- A `null` (or `undefined`) message makes `Object.keys` itself
throw: the verifier does not return. -/
theorem verifyEnvelope_null (E : JsEnv) (s : String) :
    verifyEnvelope E .null s = .error () := rfl

/-- A list differs from a given singleton exactly when its length is
not one or its head differs — the shape of the verifier's first
check. -/
theorem ne_singleton_iff (ks : List String) (x : String) :
    ks ≠ [x] ↔ ks.length ≠ 1 ∨ ks.head? ≠ some x := by
  cases ks with
  | nil => simp
  | cons a t =>
    cases t with
    | nil => simp
    | cons b t2 => simp

/-- A message whose key list is not exactly the wrapper singleton is
rejected with `false` at the structural check. -/
theorem verifyEnvelope_bad_wrapper (E : JsEnv) (msg : Json) (s : String)
    (ks : List String) (hk : keysOf msg = .ok ks)
    (hne : ks ≠ ["offline_signature"]) :
    verifyEnvelope E msg s = .ok false := by
  simp only [verifyEnvelope, hk]
  rw [if_pos ((ne_singleton_iff ks "offline_signature").mp hne)]

/-- With the structural check passed and a non-null wrapper value, a
wrong domain tag is rejected with `false`. -/
theorem verifyEnvelope_bad_domain (E : JsEnv) (msg : Json) (s : String)
    (hk : keysOf msg = .ok ["offline_signature"])
    (hnn : getField msg "offline_signature" ≠ .null)
    (hdom : strictEqStr (getField (getField msg "offline_signature") "domain")
      "fastnear/offline-signature@v1" = false) :
    verifyEnvelope E msg s = .ok false := by
  simp only [verifyEnvelope, hk, getFieldStrict_ok_of_ne_null _ hnn]
  rw [if_neg (by simp)]
  rw [if_pos (by simp [hdom])]

/-- With the structural check passed and a non-null wrapper value, an
absent (falsy) required field is rejected with `false`. -/
theorem verifyEnvelope_missing_field (E : JsEnv) (msg : Json) (s : String)
    (hk : keysOf msg = .ok ["offline_signature"])
    (hnn : getField msg "offline_signature" ≠ .null)
    (hmiss : truthy (getField (getField msg "offline_signature") "alg") = false ∨
      truthy (getField (getField msg "offline_signature") "aud") = false ∨
      truthy (getField (getField msg "offline_signature") "pk") = false ∨
      truthy (getField (getField msg "offline_signature") "nonce") = false ∨
      truthy (getField (getField msg "offline_signature") "exp") = false ∨
      truthy (getField (getField msg "offline_signature") "sub") = false) :
    verifyEnvelope E msg s = .ok false := by
  simp only [verifyEnvelope, hk, getFieldStrict_ok_of_ne_null _ hnn]
  rw [if_neg (by simp)]
  by_cases hdom : strictEqStr (getField (getField msg "offline_signature") "domain")
      "fastnear/offline-signature@v1" = true
  · rw [if_neg (by simp [hdom])]
    have hcond : ¬ truthy (getField (getField msg "offline_signature") "alg") ∨
        ¬ truthy (getField (getField msg "offline_signature") "aud") ∨
        ¬ truthy (getField (getField msg "offline_signature") "pk") ∨
        ¬ truthy (getField (getField msg "offline_signature") "nonce") ∨
        ¬ truthy (getField (getField msg "offline_signature") "exp") ∨
        ¬ truthy (getField (getField msg "offline_signature") "sub") := by
      rcases hmiss with h | h | h | h | h | h <;> simp [h]
    rw [if_pos hcond]
  · rw [if_pos (by simpa using hdom)]

/-- A message whose single wrapper key holds `null`/`undefined` makes
the unguarded `sig.domain` read throw: the verifier does not
return. -/
theorem verifyEnvelope_domain_throw (E : JsEnv) (msg : Json) (s : String)
    (hk : keysOf msg = .ok ["offline_signature"])
    (hnull : getField msg "offline_signature" = .null) :
    verifyEnvelope E msg s = .error () := by
  simp only [verifyEnvelope, hk]
  rw [hnull]
  rw [if_neg (by simp)]
  rfl

/-- The guarded block rejects when the public key fails to parse
(whatever the reason: missing body, invalid base58, wrong raw length,
unknown curve prefix). -/
theorem tryVerify_parse_error (E : JsEnv) (msg : Json) (s : String) (sig : Json)
    (h : parseNearPk E (getField sig "pk") = .error ()) :
    tryVerify E msg s sig = false := by
  cases hdec : E.b58decode s with
  | none => simp [tryVerify, hdec]
  | some sigBytes => simp [tryVerify, hdec, h]

/-- The guarded block rejects when the declared algorithm differs from
the algorithm implied by the key encoding. -/
theorem tryVerify_mismatch (E : JsEnv) (msg : Json) (s : String) (sig : Json)
    (alg : String) (pub : List Nat)
    (hparse : parseNearPk E (getField sig "pk") = .ok (alg, pub))
    (hne : strictEqStr (getField sig "alg") alg = false) :
    tryVerify E msg s sig = false := by
  cases hdec : E.b58decode s with
  | none => simp [tryVerify, hdec]
  | some sigBytes =>
    have hsecp : ¬ (strictEqStr (getField sig "alg") "secp256k1-ecdsa" = true ∧
        alg = "secp256k1-ecdsa") := by
      rintro ⟨h1, h2⟩
      subst h2
      exact absurd h1 (by simp [hne])
    simp only [tryVerify, hdec, hparse]
    rw [if_pos]
    constructor
    · simp [hne]
    · simpa using hsecp

/-- The guarded block on the ed25519 path: with a decodable 64-byte
signature and a consistent, well-parsed key it hands the canonical
bytes of the whole message to the curve primitive. -/
theorem tryVerify_ed (E : JsEnv) (msg : Json) (s : String) (sig : Json)
    (sigBytes pub : List Nat) (pkStr : String)
    (hdec : E.b58decode s = some sigBytes)
    (hpkf : getField sig "pk" = .str pkStr)
    (halgf : getField sig "alg" = .str "ed25519")
    (hparse : parseNearPk E (.str pkStr) = .ok ("ed25519", pub))
    (hlen : sigBytes.length = 64) :
    tryVerify E msg s sig =
      E.ed25519Verify sigBytes (textEncode (canonicalize msg)) pub := by
  simp [tryVerify, hdec, hpkf, halgf, hparse, hlen, strictEqStr]

/-- The guarded block on the secp256k1 path: same shape, but the
SHA-256 digest of the canonical bytes is what reaches the curve
primitive. -/
theorem tryVerify_secp (E : JsEnv) (msg : Json) (s : String) (sig : Json)
    (sigBytes pub : List Nat) (pkStr : String)
    (hdec : E.b58decode s = some sigBytes)
    (hpkf : getField sig "pk" = .str pkStr)
    (halgf : getField sig "alg" = .str "secp256k1-ecdsa")
    (hparse : parseNearPk E (.str pkStr) = .ok ("secp256k1-ecdsa", pub))
    (hlen : sigBytes.length = 64) :
    tryVerify E msg s sig =
      E.secpVerify sigBytes (E.sha256 (textEncode (canonicalize msg))) pub := by
  simp [tryVerify, hdec, hpkf, halgf, hparse, hlen, strictEqStr]

/-- On a built envelope whose string fields are all non-empty and
whose expiry does not precede the clock, the verifier passes every
cheap check and the result is that of the guarded cryptographic
block. -/
theorem verify_build_reaches_crypto (E : JsEnv)
    (network aud sub pk nonce iat exp : String) (payload : Json) (alg : String)
    (s : String)
    (haud : aud ≠ "") (hsub : sub ≠ "") (hpk : pk ≠ "") (hnonce : nonce ≠ "")
    (hexp : exp ≠ "") (halg : alg ≠ "")
    (hfresh : ∀ t, E.parseDate exp = some t → ¬ t < E.now) :
    verifyEnvelope E (buildEnvelope network aud sub pk nonce iat exp payload alg) s =
      .ok (tryVerify E (buildEnvelope network aud sub pk nonce iat exp payload alg) s
        (getField (buildEnvelope network aud sub pk nonce iat exp payload alg)
          "offline_signature")) := by
  cases hE : E.parseDate exp with
  | none =>
    simp [verifyEnvelope, buildEnvelope, keysOf, getField, getFieldStrict, jlookup, truthy,
      strictEqStr, dateGetTime, hE, haud, hsub, hpk, hnonce, hexp, halg]
  | some t =>
    have ht := hfresh t hE
    simp [verifyEnvelope, buildEnvelope, keysOf, getField, getFieldStrict, jlookup, truthy,
      strictEqStr, dateGetTime, hE, ht, haud, hsub, hpk, hnonce, hexp, halg]

/-- On a built envelope whose string fields are all non-empty but
whose expiry instant precedes the clock, the verifier rejects with
`false` at the expiry check. -/
theorem verify_build_expired (E : JsEnv)
    (network aud sub pk nonce iat exp : String) (payload : Json) (alg : String)
    (s : String) (t : Int)
    (haud : aud ≠ "") (hsub : sub ≠ "") (hpk : pk ≠ "") (hnonce : nonce ≠ "")
    (hexp : exp ≠ "") (halg : alg ≠ "")
    (hdate : E.parseDate exp = some t) (ht : t < E.now) :
    verifyEnvelope E (buildEnvelope network aud sub pk nonce iat exp payload alg) s =
      .ok false := by
  simp [verifyEnvelope, buildEnvelope, keysOf, getField, getFieldStrict, jlookup, truthy,
    strictEqStr, dateGetTime, hdate, ht, haud, hsub, hpk, hnonce, hexp, halg]

/-! ### The signing side -/

/-- Signing a built envelope that declares ed25519: the canonical
bytes of the whole envelope are signed directly. -/
theorem signEnvelope_build_ed (E : JsEnv) (kp : KeyPair)
    (network aud sub pk nonce iat exp : String) (payload : Json) :
    signEnvelope E (buildEnvelope network aud sub pk nonce iat exp payload "ed25519") kp =
      .ok { message := buildEnvelope network aud sub pk nonce iat exp payload "ed25519"
          , signature := E.b58encode (kp.sign (textEncode
              (canonicalize (buildEnvelope network aud sub pk nonce iat exp payload "ed25519"))))
          , publicKey := .str pk } := rfl

/-- Signing a built envelope that declares secp256k1-ecdsa: the
SHA-256 digest of the canonical bytes is signed. -/
theorem signEnvelope_build_secp (E : JsEnv) (kp : KeyPair)
    (network aud sub pk nonce iat exp : String) (payload : Json) :
    signEnvelope E (buildEnvelope network aud sub pk nonce iat exp payload "secp256k1-ecdsa") kp =
      .ok { message := buildEnvelope network aud sub pk nonce iat exp payload "secp256k1-ecdsa"
          , signature := E.b58encode (kp.sign (E.sha256 (textEncode
              (canonicalize (buildEnvelope network aud sub pk nonce iat exp payload "secp256k1-ecdsa")))))
          , publicKey := .str pk } := rfl

/-- The envelope `createOfflineSignature` builds before signing. -/
def freshEnvelope (E : JsEnv) (network aud sub : String) (kp : KeyPair)
    (payload : Json) (ttlMinutes : Int) : Json :=
  buildEnvelope network aud sub kp.publicKey E.nonce (E.toISO E.now)
    (E.toISO (E.now + ttlMinutes * 60 * 1000)) payload (getAlgFromKeyPair kp)

theorem createOfflineSignature_eq (E : JsEnv) (network aud sub : String)
    (kp : KeyPair) (payload : Json) (ttlMinutes : Int) :
    createOfflineSignature E network aud sub kp payload ttlMinutes =
      signEnvelope E (freshEnvelope E network aud sub kp payload ttlMinutes) kp := rfl

/-- The derived algorithm is one of the two supported names. -/
theorem getAlgFromKeyPair_cases (kp : KeyPair) :
    getAlgFromKeyPair kp = "ed25519" ∨ getAlgFromKeyPair kp = "secp256k1-ecdsa" := by
  unfold getAlgFromKeyPair
  split
  · right; rfl
  · left; rfl

/-- A rejection inside the guarded block means the whole verifier
cannot answer `true`. -/
theorem verify_ne_true_of_tryVerify_false (E : JsEnv) (msg : Json) (s : String)
    (h : tryVerify E msg s (getField msg "offline_signature") = false) :
    verifyEnvelope E msg s ≠ .ok true := by
  intro heq
  rcases verifyEnvelope_cases E msg s with hc | hc | hc <;> rw [hc] at heq
  · cases heq
  · cases heq
  · rw [h] at heq
    cases heq

/-- C1: for every valid payload and supported key pair — a key whose
self-describing string parses consistently with the algorithm derived
from it, a faithful base58 round-trip on the produced signature, a
64-byte signature the curve primitive accepts over the canonical
bytes, non-empty envelope strings, and an expiry that the clock has
not yet passed — `verifyEnvelope` accepts the message produced by
`createOfflineSignature`, and the payload carried in the returned
message is the original payload. -/
theorem offline_signature_roundtrip
    (E : JsEnv) (network aud sub : String) (kp : KeyPair) (payload : Json)
    (ttlMinutes : Int) (pub : List Nat)
    (haud : aud ≠ "") (hsub : sub ≠ "") (hnonce : E.nonce ≠ "")
    (hpkne : kp.publicKey ≠ "")
    (hexpne : E.toISO (E.now + ttlMinutes * 60 * 1000) ≠ "")
    (hfresh : ∀ t, E.parseDate (E.toISO (E.now + ttlMinutes * 60 * 1000)) = some t →
      ¬ t < E.now)
    (hparse : parseNearPk E (.str kp.publicKey) = .ok (getAlgFromKeyPair kp, pub))
    (hed : getAlgFromKeyPair kp = "ed25519" →
      E.b58decode (E.b58encode (kp.sign (textEncode (canonicalize
          (freshEnvelope E network aud sub kp payload ttlMinutes))))) =
        some (kp.sign (textEncode (canonicalize
          (freshEnvelope E network aud sub kp payload ttlMinutes)))) ∧
      (kp.sign (textEncode (canonicalize
          (freshEnvelope E network aud sub kp payload ttlMinutes)))).length = 64 ∧
      E.ed25519Verify
        (kp.sign (textEncode (canonicalize
          (freshEnvelope E network aud sub kp payload ttlMinutes))))
        (textEncode (canonicalize (freshEnvelope E network aud sub kp payload ttlMinutes)))
        pub = true)
    (hsecp : getAlgFromKeyPair kp = "secp256k1-ecdsa" →
      E.b58decode (E.b58encode (kp.sign (E.sha256 (textEncode (canonicalize
          (freshEnvelope E network aud sub kp payload ttlMinutes)))))) =
        some (kp.sign (E.sha256 (textEncode (canonicalize
          (freshEnvelope E network aud sub kp payload ttlMinutes))))) ∧
      (kp.sign (E.sha256 (textEncode (canonicalize
          (freshEnvelope E network aud sub kp payload ttlMinutes))))).length = 64 ∧
      E.secpVerify
        (kp.sign (E.sha256 (textEncode (canonicalize
          (freshEnvelope E network aud sub kp payload ttlMinutes)))))
        (E.sha256 (textEncode (canonicalize
          (freshEnvelope E network aud sub kp payload ttlMinutes))))
        pub = true) :
    ∃ sm, createOfflineSignature E network aud sub kp payload ttlMinutes = .ok sm ∧
      verifyEnvelope E sm.message sm.signature = .ok true ∧
      getField (getField sm.message "offline_signature") "payload" = payload := by
  rcases getAlgFromKeyPair_cases kp with halg | halg
  · obtain ⟨hb58, hlen, hver⟩ := hed halg
    have henv : freshEnvelope E network aud sub kp payload ttlMinutes =
        buildEnvelope network aud sub kp.publicKey E.nonce (E.toISO E.now)
          (E.toISO (E.now + ttlMinutes * 60 * 1000)) payload "ed25519" := by
      rw [freshEnvelope, halg]
    rw [henv] at hb58 hlen hver
    rw [halg] at hparse
    have hsm : createOfflineSignature E network aud sub kp payload ttlMinutes = .ok
        { message := buildEnvelope network aud sub kp.publicKey E.nonce (E.toISO E.now)
            (E.toISO (E.now + ttlMinutes * 60 * 1000)) payload "ed25519"
        , signature := E.b58encode (kp.sign (textEncode (canonicalize
            (buildEnvelope network aud sub kp.publicKey E.nonce (E.toISO E.now)
              (E.toISO (E.now + ttlMinutes * 60 * 1000)) payload "ed25519"))))
        , publicKey := .str kp.publicKey } := by
      rw [createOfflineSignature_eq, henv]
      exact signEnvelope_build_ed E kp network aud sub kp.publicKey E.nonce
        (E.toISO E.now) (E.toISO (E.now + ttlMinutes * 60 * 1000)) payload
    refine ⟨_, hsm, ?_, rfl⟩
    show verifyEnvelope E
      (buildEnvelope network aud sub kp.publicKey E.nonce (E.toISO E.now)
        (E.toISO (E.now + ttlMinutes * 60 * 1000)) payload "ed25519")
      (E.b58encode (kp.sign (textEncode (canonicalize
        (buildEnvelope network aud sub kp.publicKey E.nonce (E.toISO E.now)
          (E.toISO (E.now + ttlMinutes * 60 * 1000)) payload "ed25519"))))) = .ok true
    rw [verify_build_reaches_crypto E network aud sub kp.publicKey E.nonce
      (E.toISO E.now) (E.toISO (E.now + ttlMinutes * 60 * 1000)) payload "ed25519" _
      haud hsub hpkne hnonce hexpne (by decide) hfresh]
    rw [tryVerify_ed E
      (buildEnvelope network aud sub kp.publicKey E.nonce (E.toISO E.now)
        (E.toISO (E.now + ttlMinutes * 60 * 1000)) payload "ed25519")
      (E.b58encode (kp.sign (textEncode (canonicalize
        (buildEnvelope network aud sub kp.publicKey E.nonce (E.toISO E.now)
          (E.toISO (E.now + ttlMinutes * 60 * 1000)) payload "ed25519")))))
      (getField (buildEnvelope network aud sub kp.publicKey E.nonce (E.toISO E.now)
        (E.toISO (E.now + ttlMinutes * 60 * 1000)) payload "ed25519") "offline_signature")
      (kp.sign (textEncode (canonicalize
        (buildEnvelope network aud sub kp.publicKey E.nonce (E.toISO E.now)
          (E.toISO (E.now + ttlMinutes * 60 * 1000)) payload "ed25519"))))
      pub kp.publicKey hb58 rfl rfl hparse hlen]
    rw [hver]
  · obtain ⟨hb58, hlen, hver⟩ := hsecp halg
    have henv : freshEnvelope E network aud sub kp payload ttlMinutes =
        buildEnvelope network aud sub kp.publicKey E.nonce (E.toISO E.now)
          (E.toISO (E.now + ttlMinutes * 60 * 1000)) payload "secp256k1-ecdsa" := by
      rw [freshEnvelope, halg]
    rw [henv] at hb58 hlen hver
    rw [halg] at hparse
    have hsm : createOfflineSignature E network aud sub kp payload ttlMinutes = .ok
        { message := buildEnvelope network aud sub kp.publicKey E.nonce (E.toISO E.now)
            (E.toISO (E.now + ttlMinutes * 60 * 1000)) payload "secp256k1-ecdsa"
        , signature := E.b58encode (kp.sign (E.sha256 (textEncode (canonicalize
            (buildEnvelope network aud sub kp.publicKey E.nonce (E.toISO E.now)
              (E.toISO (E.now + ttlMinutes * 60 * 1000)) payload "secp256k1-ecdsa")))))
        , publicKey := .str kp.publicKey } := by
      rw [createOfflineSignature_eq, henv]
      exact signEnvelope_build_secp E kp network aud sub kp.publicKey E.nonce
        (E.toISO E.now) (E.toISO (E.now + ttlMinutes * 60 * 1000)) payload
    refine ⟨_, hsm, ?_, rfl⟩
    show verifyEnvelope E
      (buildEnvelope network aud sub kp.publicKey E.nonce (E.toISO E.now)
        (E.toISO (E.now + ttlMinutes * 60 * 1000)) payload "secp256k1-ecdsa")
      (E.b58encode (kp.sign (E.sha256 (textEncode (canonicalize
        (buildEnvelope network aud sub kp.publicKey E.nonce (E.toISO E.now)
          (E.toISO (E.now + ttlMinutes * 60 * 1000)) payload "secp256k1-ecdsa")))))) = .ok true
    rw [verify_build_reaches_crypto E network aud sub kp.publicKey E.nonce
      (E.toISO E.now) (E.toISO (E.now + ttlMinutes * 60 * 1000)) payload "secp256k1-ecdsa" _
      haud hsub hpkne hnonce hexpne (by decide) hfresh]
    rw [tryVerify_secp E
      (buildEnvelope network aud sub kp.publicKey E.nonce (E.toISO E.now)
        (E.toISO (E.now + ttlMinutes * 60 * 1000)) payload "secp256k1-ecdsa")
      (E.b58encode (kp.sign (E.sha256 (textEncode (canonicalize
        (buildEnvelope network aud sub kp.publicKey E.nonce (E.toISO E.now)
          (E.toISO (E.now + ttlMinutes * 60 * 1000)) payload "secp256k1-ecdsa"))))))
      (getField (buildEnvelope network aud sub kp.publicKey E.nonce (E.toISO E.now)
        (E.toISO (E.now + ttlMinutes * 60 * 1000)) payload "secp256k1-ecdsa") "offline_signature")
      (kp.sign (E.sha256 (textEncode (canonicalize
        (buildEnvelope network aud sub kp.publicKey E.nonce (E.toISO E.now)
          (E.toISO (E.now + ttlMinutes * 60 * 1000)) payload "secp256k1-ecdsa")))))
      pub kp.publicKey hb58 rfl rfl hparse hlen]
    rw [hver]

/-- C2: any two JSON-like values that are deep-equal up to the order
of object keys canonicalize to byte-identical output: `canonicalize`
sorts object keys ascending at every level, preserves array order and
primitives, and serializes without insignificant whitespace. -/
theorem canonicalize_deterministic {v w : Json} (h : JEquiv v w) :
    canonicalize v = canonicalize w :=
  congrArg stringify (canon_eq_of_jequiv h)

/-- C3: `signEnvelope` signs the canonical serialization of the entire
envelope, wrapper key included: for ed25519 the canonical bytes are
signed directly, for secp256k1-ecdsa the SHA-256 digest of the
canonical bytes is signed; in both cases the signature bytes are
base58-encoded in the returned message, next to the unmodified
envelope and its public key. -/
theorem signEnvelope_spec (E : JsEnv) (kp : KeyPair)
    (network aud sub pk nonce iat exp : String) (payload : Json) :
    signEnvelope E (buildEnvelope network aud sub pk nonce iat exp payload "ed25519") kp =
      .ok { message := buildEnvelope network aud sub pk nonce iat exp payload "ed25519"
          , signature := E.b58encode (kp.sign (textEncode
              (canonicalize (buildEnvelope network aud sub pk nonce iat exp payload "ed25519"))))
          , publicKey := .str pk } ∧
    signEnvelope E (buildEnvelope network aud sub pk nonce iat exp payload "secp256k1-ecdsa") kp =
      .ok { message := buildEnvelope network aud sub pk nonce iat exp payload "secp256k1-ecdsa"
          , signature := E.b58encode (kp.sign (E.sha256 (textEncode
              (canonicalize (buildEnvelope network aud sub pk nonce iat exp payload "secp256k1-ecdsa")))))
          , publicKey := .str pk } :=
  ⟨signEnvelope_build_ed E kp network aud sub pk nonce iat exp payload,
   signEnvelope_build_secp E kp network aud sub pk nonce iat exp payload⟩

/-- C9: as shipped the feature flag is `false`, so the dispatch
functions always take the simple path — a plain `JSON.stringify` of
the payload/accountId/timestamp object with no canonicalization, no
envelope, no domain tag and no expiry check — and never reach the
FN-OS1 `createOfflineSignature`/`verifyEnvelope` path. -/
theorem dispatch_always_simple :
    USE_FN_OS1 = false ∧
    (∀ (E : JsEnv) (payload : Json) (kp : KeyPair) (accountId aud : String)
        (network : Option String) (ttlMinutes : Int),
      signOfflineMessage E payload kp accountId aud network ttlMinutes =
        .ok (.simple (simpleSign E payload kp accountId))) ∧
    (∀ (E : JsEnv) (sm : SimpleSigned),
      verifyOfflineMessage E sm = .ok (simpleVerify E sm)) :=
  ⟨rfl, fun _ _ _ _ _ _ _ => rfl, fun _ _ => rfl⟩

/-- C8 (amended): `assertKeyOnChain` answers `true` exactly on a
successful lookup; its catch-all converts every rejection — the
not-found negative result and any transport error alike — into the
same `false`, so callers cannot distinguish the two from its result. -/
theorem assertKeyOnChain_conflates (m : String) :
    assertKeyOnChain .success = true ∧
    assertKeyOnChain (.notFound m) = false ∧
    assertKeyOnChain (.transportError m) = false :=
  ⟨rfl, rfl, rfl⟩

/-- C8 counterexample: a transport-level failure (a connection
timeout, say) yields the very same `false` as the legitimate negative
result, not a propagated failure distinct from it. -/
theorem assertKeyOnChain_transport_not_propagated :
    assertKeyOnChain (.transportError "connection timeout") =
      assertKeyOnChain (.notFound "access key not found") := rfl

/-- C4 (amended): the verifier rejects with `false` whenever the
message's key list is not exactly `["offline_signature"]`, and — as
long as the wrapper's value is not `null`/`undefined`, in which case
the unguarded `sig.domain` read throws before returning anything —
whenever the domain tag differs from the exact constant or one of the
six required fields is absent; because the environment `E`, which
carries every cryptographic primitive and the clock, is universally
quantified and unconstrained, each of these cheap rejections happens
before any public-key parsing or cryptographic verification can
influence the result. -/
theorem verifier_cheap_checks (E : JsEnv) (s : String) :
    (∀ (msg : Json) (ks : List String), keysOf msg = .ok ks →
        ks ≠ ["offline_signature"] → verifyEnvelope E msg s = .ok false) ∧
    (∀ msg : Json, keysOf msg = .ok ["offline_signature"] →
        getField msg "offline_signature" ≠ .null →
        strictEqStr (getField (getField msg "offline_signature") "domain")
          "fastnear/offline-signature@v1" = false →
        verifyEnvelope E msg s = .ok false) ∧
    (∀ msg : Json, keysOf msg = .ok ["offline_signature"] →
        getField msg "offline_signature" ≠ .null →
        (truthy (getField (getField msg "offline_signature") "alg") = false ∨
         truthy (getField (getField msg "offline_signature") "aud") = false ∨
         truthy (getField (getField msg "offline_signature") "pk") = false ∨
         truthy (getField (getField msg "offline_signature") "nonce") = false ∨
         truthy (getField (getField msg "offline_signature") "exp") = false ∨
         truthy (getField (getField msg "offline_signature") "sub") = false) →
        verifyEnvelope E msg s = .ok false) :=
  ⟨fun msg ks hk hne => verifyEnvelope_bad_wrapper E msg s ks hk hne,
   fun msg hk hnn hdom => verifyEnvelope_bad_domain E msg s hk hnn hdom,
   fun msg hk hnn hmiss => verifyEnvelope_missing_field E msg s hk hnn hmiss⟩

/-- C4 counterexample: at the message whose single wrapper key holds
`null` — where the domain tag certainly differs from the constant and
every required field is absent — the verifier throws a `TypeError` at
the unguarded `sig.domain` read instead of returning `false`. -/
theorem verifier_cheap_checks_counterexample :
    verifyEnvelope testEnv (.obj [("offline_signature", .null)]) "s" = .error () := rfl

/-- C5: the verifier never answers `true` when the public key's raw
bytes have the wrong length for their declared curve (not 32 for
ed25519, not 64 for secp256k1) or when the envelope's declared
algorithm differs from the one implied by the key's prefix — in
particular an `ed25519` envelope carrying a 64-byte secp256k1-shaped
key can never verify; and a well-formed 64-byte secp256k1 key is
re-expanded with the leading `0x04` byte before it reaches the
point-decoding primitive. -/
theorem verifier_key_consistency :
    (∀ (E : JsEnv) (msg : Json) (s pkStr b58 : String) (tail : List String)
        (raw : List Nat),
      getField (getField msg "offline_signature") "pk" = .str pkStr →
      splitString ':' pkStr = "ed25519" :: b58 :: tail →
      E.b58decode b58 = some raw → raw.length ≠ 32 →
      verifyEnvelope E msg s ≠ .ok true) ∧
    (∀ (E : JsEnv) (msg : Json) (s pkStr b58 : String) (tail : List String)
        (raw : List Nat),
      getField (getField msg "offline_signature") "pk" = .str pkStr →
      splitString ':' pkStr = "secp256k1" :: b58 :: tail →
      E.b58decode b58 = some raw → raw.length ≠ 64 →
      verifyEnvelope E msg s ≠ .ok true) ∧
    (∀ (E : JsEnv) (msg : Json) (s alg : String) (pub : List Nat),
      parseNearPk E (getField (getField msg "offline_signature") "pk") = .ok (alg, pub) →
      strictEqStr (getField (getField msg "offline_signature") "alg") alg = false →
      verifyEnvelope E msg s ≠ .ok true) ∧
    (∀ (E : JsEnv) (pkStr b58 : String) (tail : List String) (raw : List Nat),
      splitString ':' pkStr = "secp256k1" :: b58 :: tail →
      E.b58decode b58 = some raw → raw.length = 64 →
      parseNearPk E (.str pkStr) = .ok ("secp256k1-ecdsa", 4 :: raw)) := by
  refine ⟨?_, ?_, ?_, ?_⟩
  · intro E msg s pkStr b58 tail raw hpk hsplit hdec hlen
    apply verify_ne_true_of_tryVerify_false
    apply tryVerify_parse_error
    rw [hpk]
    simp [parseNearPk, hsplit, hdec, hlen]
  · intro E msg s pkStr b58 tail raw hpk hsplit hdec hlen
    apply verify_ne_true_of_tryVerify_false
    apply tryVerify_parse_error
    rw [hpk]
    simp [parseNearPk, hsplit, hdec, hlen]
  · intro E msg s alg pub hparse hne
    exact verify_ne_true_of_tryVerify_false E msg s
      (tryVerify_mismatch E msg s _ alg pub hparse hne)
  · intro E pkStr b58 tail raw hsplit hdec hlen
    simp [parseNearPk, hsplit, hdec, hlen]

/-- C6: at the expiry boundary, an otherwise-valid signed envelope
whose expiry instant is one second before the clock is rejected, and
the same envelope with an expiry one second after the clock is
accepted — the verifier rejects exactly when the current time exceeds
the expiry instant. -/
theorem verifier_expiry_boundary (E : JsEnv)
    (network aud sub pkStr nonce iat exp1 exp2 s : String) (payload : Json)
    (sigBytes pub : List Nat)
    (haud : aud ≠ "") (hsub : sub ≠ "") (hpk : pkStr ≠ "") (hnonce : nonce ≠ "")
    (hexp1 : exp1 ≠ "") (hexp2 : exp2 ≠ "")
    (h1 : E.parseDate exp1 = some (E.now - 1000))
    (h2 : E.parseDate exp2 = some (E.now + 1000))
    (hdec : E.b58decode s = some sigBytes) (hlen : sigBytes.length = 64)
    (hparse : parseNearPk E (.str pkStr) = .ok ("ed25519", pub))
    (hver : E.ed25519Verify sigBytes
      (textEncode (canonicalize
        (buildEnvelope network aud sub pkStr nonce iat exp2 payload "ed25519")))
      pub = true) :
    verifyEnvelope E (buildEnvelope network aud sub pkStr nonce iat exp1 payload "ed25519") s
      = .ok false ∧
    verifyEnvelope E (buildEnvelope network aud sub pkStr nonce iat exp2 payload "ed25519") s
      = .ok true := by
  constructor
  · exact verify_build_expired E network aud sub pkStr nonce iat exp1 payload "ed25519" s
      (E.now - 1000) haud hsub hpk hnonce hexp1 (by decide) h1 (by omega)
  · rw [verify_build_reaches_crypto E network aud sub pkStr nonce iat exp2 payload
      "ed25519" s haud hsub hpk hnonce hexp2 (by decide)
      (fun t ht => by rw [h2] at ht; cases ht; omega)]
    rw [tryVerify_ed E
      (buildEnvelope network aud sub pkStr nonce iat exp2 payload "ed25519") s
      (getField (buildEnvelope network aud sub pkStr nonce iat exp2 payload "ed25519")
        "offline_signature")
      sigBytes pub pkStr hdec rfl rfl hparse hlen]
    rw [hver]

/-- C7 (amended): the verifier applies no clock-skew tolerance at all:
as soon as the expiry instant lies strictly before the clock — even
within the two minutes the specification suggests tolerating — the
message is rejected as expired. -/
theorem verifier_rejects_within_skew_window (E : JsEnv)
    (network aud sub pkStr nonce iat exp s : String) (payload : Json)
    (alg : String) (t : Int)
    (haud : aud ≠ "") (hsub : sub ≠ "") (hpk : pkStr ≠ "") (hnonce : nonce ≠ "")
    (hexp : exp ≠ "") (halg : alg ≠ "")
    (hdate : E.parseDate exp = some t) (ht : t < E.now)
    (hskew : E.now - t ≤ 120000) :
    verifyEnvelope E (buildEnvelope network aud sub pkStr nonce iat exp payload alg) s
      = .ok false :=
  verify_build_expired E network aud sub pkStr nonce iat exp payload alg s t
    haud hsub hpk hnonce hexp halg hdate ht

/-- C7 counterexample: a concretely valid signed envelope whose expiry
lies one minute before the clock — squarely inside the claimed
two-minute tolerance — is rejected, while the identical envelope with
a later expiry verifies, showing it was otherwise valid. -/
theorem verifier_skew_counterexample :
    verifyEnvelope testEnv
      (buildEnvelope "mainnet" "https://app.example" "alice.near" "ed25519:K" "n"
        "500000" "440000" (.str "hello") "ed25519") "S" = .ok false ∧
    verifyEnvelope testEnv
      (buildEnvelope "mainnet" "https://app.example" "alice.near" "ed25519:K" "n"
        "500000" "560000" (.str "hello") "ed25519") "S" = .ok true := by
  constructor
  · exact verify_build_expired testEnv "mainnet" "https://app.example" "alice.near"
      "ed25519:K" "n" "500000" "440000" (.str "hello") "ed25519" "S" 440000
      (by decide) (by decide) (by decide) (by decide) (by decide) (by decide) rfl (by decide)
  · rw [verify_build_reaches_crypto testEnv "mainnet" "https://app.example" "alice.near"
      "ed25519:K" "n" "500000" "560000" (.str "hello") "ed25519" "S"
      (by decide) (by decide) (by decide) (by decide) (by decide) (by decide)
      (fun t ht => by rw [show testEnv.parseDate "560000" = some 560000 from rfl] at ht
                      cases ht
                      decide)]
    rw [tryVerify_ed testEnv
      (buildEnvelope "mainnet" "https://app.example" "alice.near" "ed25519:K" "n"
        "500000" "560000" (.str "hello") "ed25519") "S"
      (getField (buildEnvelope "mainnet" "https://app.example" "alice.near" "ed25519:K" "n"
        "500000" "560000" (.str "hello") "ed25519") "offline_signature")
      (List.replicate 64 7) (List.replicate 32 1) "ed25519:K" rfl rfl rfl rfl (by decide)]
    rfl

/-- C10 (amended): every exception raised inside the guarded `try`
block — base58-decoding the signature, parsing the public key, running
the curve primitive — is caught and becomes `false`, but the verifier
is not total on all non-null object messages: it throws exactly when
the message is `null`/`undefined` (at the `Object.keys` listing) or
when its single `offline_signature` key holds `null`/`undefined` (at
the unguarded `sig.domain` read); on every other message, non-object
primitives included, it returns a boolean. -/
theorem verifyEnvelope_throw_characterization (E : JsEnv) (msg : Json) (s : String) :
    (verifyEnvelope E msg s = .error () ↔
      msg = .null ∨ (keysOf msg = .ok ["offline_signature"] ∧
        getField msg "offline_signature" = .null)) ∧
    (msg ≠ .null →
      (keysOf msg = .ok ["offline_signature"] →
        getField msg "offline_signature" ≠ .null) →
      ∃ b, verifyEnvelope E msg s = .ok b) := by
  constructor
  · constructor
    · intro h
      by_cases hmsg : msg = .null
      · exact Or.inl hmsg
      · obtain ⟨ks, hk⟩ := keysOf_ok_of_ne_null hmsg
        by_cases hks : ks = ["offline_signature"]
        · subst hks
          by_cases hnn : getField msg "offline_signature" = .null
          · exact Or.inr ⟨hk, hnn⟩
          · obtain ⟨b, hb⟩ := verifyEnvelope_total E msg s hk hnn
            rw [hb] at h
            cases h
        · rw [verifyEnvelope_bad_wrapper E msg s ks hk hks] at h
          cases h
    · intro h
      rcases h with rfl | ⟨hk, hnull⟩
      · exact verifyEnvelope_null E s
      · exact verifyEnvelope_domain_throw E msg s hk hnull
  · intro hmsg hsig
    obtain ⟨ks, hk⟩ := keysOf_ok_of_ne_null hmsg
    by_cases hks : ks = ["offline_signature"]
    · subst hks
      exact verifyEnvelope_total E msg s hk (hsig hk)
    · exact ⟨false, verifyEnvelope_bad_wrapper E msg s ks hk hks⟩

/-- C10 witness: the characterization applied at a concrete message
whose wrapper value is a proper object. -/
theorem verifyEnvelope_throw_characterization_witness :
    (verifyEnvelope testEnv (.obj [("offline_signature", .obj [])]) "x" = .error () ↔
      (.obj [("offline_signature", .obj [])] : Json) = .null ∨
        (keysOf (.obj [("offline_signature", .obj [])]) = .ok ["offline_signature"] ∧
          getField (.obj [("offline_signature", .obj [])]) "offline_signature" = .null)) ∧
    ((.obj [("offline_signature", .obj [])] : Json) ≠ .null →
      (keysOf (.obj [("offline_signature", .obj [])]) = .ok ["offline_signature"] →
        getField (.obj [("offline_signature", .obj [])]) "offline_signature" ≠ .null) →
      ∃ b, verifyEnvelope testEnv (.obj [("offline_signature", .obj [])]) "x" = .ok b) :=
  verifyEnvelope_throw_characterization testEnv (.obj [("offline_signature", .obj [])]) "x"

/-- C10 counterexample: the claim fails in both directions — the
non-null object message whose wrapper value is `null` passes the key
listing and then throws at the unguarded `sig.domain` read, and a
non-object message does not make the key listing throw at all, it is
answered with an ordinary `false`. -/
theorem verifyEnvelope_totality_counterexample :
    verifyEnvelope testEnv (.obj [("offline_signature", .null)]) "sig" = .error () ∧
    verifyEnvelope testEnv (.num 5) "sig" = .ok false := ⟨rfl, rfl⟩

/-- C2 witness: two concrete objects, reordered at both nesting
levels, canonicalize identically. -/
theorem canonicalize_deterministic_witness :
    canonicalize (Json.obj [("b", .num 1), ("a", .obj [("q", .null), ("p", .bool true)])]) =
    canonicalize (Json.obj [("a", .obj [("p", .bool true), ("q", .null)]), ("b", .num 1)]) := by
  have hinner : JEquiv (Json.obj [("q", Json.null), ("p", Json.bool true)])
      (Json.obj [("p", Json.bool true), ("q", Json.null)]) := by
    apply JEquiv.obj (by decide) (by decide)
    intro k v w hv hw
    simp only [List.mem_cons, List.not_mem_nil, or_false, Prod.mk.injEq] at hv hw
    rcases hv with ⟨rfl, rfl⟩ | ⟨rfl, rfl⟩ <;> rcases hw with ⟨hk, rfl⟩ | ⟨hk, rfl⟩ <;>
      first
        | exact absurd hk (by decide)
        | exact JEquiv.null
        | exact JEquiv.bool true
  apply canonicalize_deterministic
  apply JEquiv.obj (by decide) (by decide)
  intro k v w hv hw
  simp only [List.mem_cons, List.not_mem_nil, or_false, Prod.mk.injEq] at hv hw
  rcases hv with ⟨rfl, rfl⟩ | ⟨rfl, rfl⟩ <;> rcases hw with ⟨hk, rfl⟩ | ⟨hk, rfl⟩ <;>
    first
      | exact absurd hk (by decide)
      | exact JEquiv.num 1
      | exact hinner

/-- C1 witness: the round-trip theorem applied to the concrete test
environment and key pair. -/
theorem offline_signature_roundtrip_witness :
    ∃ sm, createOfflineSignature testEnv "mainnet" "https://app.example" "alice.near"
        testKeyPair (Json.obj [("action", .str "test")]) 5 = .ok sm ∧
      verifyEnvelope testEnv sm.message sm.signature = .ok true ∧
      getField (getField sm.message "offline_signature") "payload" =
        Json.obj [("action", .str "test")] :=
  offline_signature_roundtrip testEnv "mainnet" "https://app.example" "alice.near"
    testKeyPair (Json.obj [("action", .str "test")]) 5 (List.replicate 32 1)
    (by decide) (by decide) (by decide) (by decide) (by decide)
    (fun t ht => by
      rw [show testEnv.parseDate (testEnv.toISO (testEnv.now + 5 * 60 * 1000)) =
        some 800000 from rfl] at ht
      cases ht
      decide)
    rfl
    (fun _ => ⟨rfl, rfl, rfl⟩)
    (fun h => absurd h (by decide))

/-- C6 witness: the boundary theorem applied to the concrete test
environment, with expiries one second on either side of the clock. -/
theorem verifier_expiry_boundary_witness :
    verifyEnvelope testEnv (buildEnvelope "mainnet" "https://app.example" "alice.near"
      "ed25519:K" "n" "500000" "499000" (.str "p") "ed25519") "S" = .ok false ∧
    verifyEnvelope testEnv (buildEnvelope "mainnet" "https://app.example" "alice.near"
      "ed25519:K" "n" "500000" "501000" (.str "p") "ed25519") "S" = .ok true :=
  verifier_expiry_boundary testEnv "mainnet" "https://app.example" "alice.near"
    "ed25519:K" "n" "500000" "499000" "501000" "S" (.str "p")
    (List.replicate 64 7) (List.replicate 32 1)
    (by decide) (by decide) (by decide) (by decide) (by decide) (by decide)
    rfl rfl rfl (by decide) rfl rfl

/-- C7 witness: the no-skew theorem applied to the concrete test
environment, with an expiry one minute — inside the claimed window —
before the clock. -/
theorem verifier_rejects_within_skew_window_witness :
    verifyEnvelope testEnv (buildEnvelope "mainnet" "https://app.example" "alice.near"
      "ed25519:K" "n" "500000" "440000" (.str "p") "ed25519") "S" = .ok false :=
  verifier_rejects_within_skew_window testEnv "mainnet" "https://app.example"
    "alice.near" "ed25519:K" "n" "500000" "440000" "S" (.str "p") "ed25519" 440000
    (by decide) (by decide) (by decide) (by decide) (by decide) (by decide)
    rfl (by decide) (by decide)

/-- C4 witness: the cheap-check theorem applied to three concrete
malformed messages — wrong wrapper key, wrong domain, and a missing
`aud` field. -/
theorem verifier_cheap_checks_witness :
    verifyEnvelope testEnv (.obj [("foo", .null)]) "s" = .ok false ∧
    verifyEnvelope testEnv (.obj [("offline_signature", .obj [("domain", .str "wrong")])])
      "s" = .ok false ∧
    verifyEnvelope testEnv (.obj [("offline_signature", .obj
      [ ("domain", .str "fastnear/offline-signature@v1"), ("alg", .str "ed25519")
      , ("pk", .str "ed25519:K"), ("nonce", .str "n"), ("exp", .str "800000")
      , ("sub", .str "alice.near") ])]) "s" = .ok false :=
  ⟨(verifier_cheap_checks testEnv "s").1 (.obj [("foo", .null)]) ["foo"] rfl (by decide),
   (verifier_cheap_checks testEnv "s").2.1
     (.obj [("offline_signature", .obj [("domain", .str "wrong")])]) rfl
     (fun h => Json.noConfusion h) rfl,
   (verifier_cheap_checks testEnv "s").2.2
     (.obj [("offline_signature", .obj
       [ ("domain", .str "fastnear/offline-signature@v1"), ("alg", .str "ed25519")
       , ("pk", .str "ed25519:K"), ("nonce", .str "n"), ("exp", .str "800000")
       , ("sub", .str "alice.near") ])]) rfl
     (fun h => Json.noConfusion h) (Or.inr (Or.inl rfl))⟩

/-- C5 witness: the key-consistency theorem applied to concrete
messages — an ed25519 envelope with a 64-byte key, a secp256k1
envelope with a 32-byte key, an ed25519 envelope with a
secp256k1-prefixed key, and the concrete `0x04` re-expansion. -/
theorem verifier_key_consistency_witness :
    verifyEnvelope testEnv (buildEnvelope "mainnet" "https://app.example" "alice.near"
      "ed25519:L" "n" "500000" "800000" (.str "p") "ed25519") "S" ≠ .ok true ∧
    verifyEnvelope testEnv (buildEnvelope "mainnet" "https://app.example" "alice.near"
      "secp256k1:K" "n" "500000" "800000" (.str "p") "secp256k1-ecdsa") "S" ≠ .ok true ∧
    verifyEnvelope testEnv (buildEnvelope "mainnet" "https://app.example" "alice.near"
      "secp256k1:L" "n" "500000" "800000" (.str "p") "ed25519") "S" ≠ .ok true ∧
    parseNearPk testEnv (.str "secp256k1:L") =
      .ok ("secp256k1-ecdsa", 4 :: List.replicate 64 2) :=
  ⟨verifier_key_consistency.1 testEnv _ "S" "ed25519:L" "L" [] (List.replicate 64 2)
     rfl (by decide) rfl (by decide),
   verifier_key_consistency.2.1 testEnv _ "S" "secp256k1:K" "K" [] (List.replicate 32 1)
     rfl (by decide) rfl (by decide),
   verifier_key_consistency.2.2.1 testEnv _ "S" "secp256k1-ecdsa"
     (4 :: List.replicate 64 2) rfl rfl,
   verifier_key_consistency.2.2.2 testEnv "secp256k1:L" "L" [] (List.replicate 64 2)
     rfl rfl rfl⟩
